import Mathlib

/-!
Verification of the crawl orchestration core of the `web-crawler` repository.

The file shallowly embeds the parts of the code the claims are about:
the SQLite-backed article store and its URL-unique insert
(`src/app/models/database.py`), the multi-backend storage sink
(`src/app/models/storage.py`, `src/app/models/csv_storage.py`), the crawl
orchestration (`src/app/utils/crawler_manager.py`,
`src/app/scrapers/base_crawler.py`), the paginated API loop
(`src/app/api/newsapi_fetcher.py`) and the date-indexed archive adapter
(`src/app/parsers/rbc_ukraine_parser.py`).  Timestamps produced by
`datetime.utcnow()` are passed in as opaque `now : String` arguments.
-/

namespace Crawler

/-- Truthiness of an optional string field of an article dict, as tested by
the Python conditions of the form `if not url or not title` in the batch
loops: an absent field and the empty string are both falsy. -/
def truthy : Option String → Bool
  | none => false
  | some s => s != ""

/-- The normalized article dict handed from an adapter to the storage sink
(keys `url`, `title`, `content`, `published_date`; each may be absent). -/
structure ArticleIn where
  url : Option String
  title : Option String
  content : Option String
  published_date : Option String
deriving DecidableEq

/-- One row of the `articles` table created by `Database.init_database`
(src/app/models/database.py, lines 52-65): `id` is the autoincrement key and
`url` carries a `UNIQUE NOT NULL` constraint. -/
structure ArticleRow where
  id : Nat
  source_id : Nat
  url : String
  title : String
  content : Option String
  published_date : Option String
  scraped_date : String
  created_at : String
  updated_at : String
deriving DecidableEq

/-- The `articles` table: its rows plus the next autoincrement id. -/
structure ArticleTable where
  rows : List ArticleRow
  nextId : Nat
deriving DecidableEq

/-- The freshly initialized, empty `articles` table. -/
def ArticleTable.empty : ArticleTable := ⟨[], 1⟩

/-- The stored URLs, in row order. -/
def ArticleTable.urls (t : ArticleTable) : List String :=
  t.rows.map (fun r => r.url)

/-- Embedding of `Article.create` (src/app/models/database.py, lines
170-192): one `INSERT` into the `articles` table, whose `url` column is
`UNIQUE`; the `sqlite3.IntegrityError` raised on a duplicate URL is caught
and reported as `None`, the transaction is rolled back and the table is left
unchanged.  On success the new row id is returned.  `now` stands for
`datetime.utcnow().isoformat()`, stored into `scraped_date`, `created_at`
and `updated_at`. -/
def Article.create (t : ArticleTable) (source_id : Nat) (url title : String)
    (content published_date : Option String) (now : String) :
    Option Nat × ArticleTable :=
  if t.rows.any (fun r => r.url == url) then
    (none, t)
  else
    (some t.nextId,
      ⟨t.rows ++ [⟨t.nextId, source_id, url, title, content, published_date, now, now, now⟩],
        t.nextId + 1⟩)

/-- The arguments of one `Article.create` call.  `Article.create` is the only
operation in the core that writes to the `articles` table (articles are never
updated or deleted), so states reachable from the empty table are exactly the
results of a sequence of such calls. -/
structure CreateOp where
  source_id : Nat
  url : String
  title : String
  content : Option String
  published_date : Option String
  now : String

/-- Apply one `Article.create` call to the table, keeping the new state. -/
def applyCreate (t : ArticleTable) (op : CreateOp) : ArticleTable :=
  (Article.create t op.source_id op.url op.title op.content op.published_date op.now).2

/-- The table reached from the empty table by a sequence of
`Article.create` calls. -/
def runOps (ops : List CreateOp) : ArticleTable :=
  ops.foldl applyCreate ArticleTable.empty

/-- The `saved`/`skipped` counters returned by one batch store. -/
structure BatchResult where
  saved : Nat
  skipped : Nat
deriving DecidableEq

/-- The URL key under which an article dict is deduplicated (its `url` value;
`""` when absent — a case the batch loops skip before ever using the key). -/
def urlKey (a : ArticleIn) : String := a.url.getD ""

/-- Modelled from the spec: `Article.create_batch` is invoked by
`StorageManager.create_article_batch` (src/app/models/storage.py, lines
67-72) but its definition is absent from the repository sources.  Per §4.5
of the spec, for each article in the batch the loop skips (counting it as
skipped) articles whose required fields URL and title are absent, and
otherwise attempts the URL-unique insert `Article.create`, counting a
uniqueness violation as skipped — not an error — and a successful insert as
saved.  The `batch_size` argument of the caller only controls commit
granularity and does not affect the counts or the resulting rows, so it is
not modelled. -/
def Article.create_batch (t : ArticleTable) (source_id : Nat)
    (articles : List ArticleIn) (now : String) : BatchResult × ArticleTable :=
  match articles with
  | [] => (⟨0, 0⟩, t)
  | a :: rest =>
    if truthy a.url && truthy a.title then
      let c := Article.create t source_id (a.url.getD "") (a.title.getD "")
        a.content a.published_date now
      let r := Article.create_batch c.2 source_id rest now
      if c.1.isSome then (⟨r.1.saved + 1, r.1.skipped⟩, r.2)
      else (⟨r.1.saved, r.1.skipped + 1⟩, r.2)
    else
      let r := Article.create_batch t source_id rest now
      (⟨r.1.saved, r.1.skipped + 1⟩, r.2)

/-- One row of the CSV file written by `CSVStorage.create_batch`
(src/app/models/csv_storage.py, `FIELDNAMES`). -/
structure CsvRow where
  source_id : Nat
  source_name : String
  url : String
  title : String
  content : String
  published_date : String
  scraped_date : String
deriving DecidableEq

/-- Embedding of `CSVStorage._sanitize_content` (src/app/models/csv_storage.py,
lines 102-108): empty or absent content stays empty; otherwise whitespace runs
(including newlines) are collapsed to single spaces via
`' '.join(content.split())`. -/
def sanitize_content : Option String → String
  | none => ""
  | some c =>
    " ".intercalate ((c.split (fun ch => ch.isWhitespace)).filter (fun s => s != ""))

/-- Embedding of `CSVStorage.create_batch` (src/app/models/csv_storage.py,
lines 51-100): for each article, skip (counting it) when `url` or `title` is
falsy, otherwise append one row to the CSV file and count it as saved.  The
CSV file is modelled as the list of its rows; `now` stands for
`datetime.utcnow().isoformat()`. -/
def CSVStorage.create_batch (rows : List CsvRow) (source_id : Nat)
    (source_name : String) (articles : List ArticleIn) (now : String) :
    BatchResult × List CsvRow :=
  match articles with
  | [] => (⟨0, 0⟩, rows)
  | a :: rest =>
    if truthy a.url && truthy a.title then
      let row : CsvRow :=
        ⟨source_id, source_name, a.url.getD "", a.title.getD "",
          sanitize_content a.content, a.published_date.getD "", now⟩
      let r := CSVStorage.create_batch (rows ++ [row]) source_id source_name rest now
      (⟨r.1.saved + 1, r.1.skipped⟩, r.2)
    else
      let r := CSVStorage.create_batch rows source_id source_name rest now
      (⟨r.1.saved, r.1.skipped + 1⟩, r.2)

/-- The state of the multi-backend storage sink: which backends are
configured (`article_model` and `csv_storage` being non-`None`), the SQLite
`articles` table and the CSV rows. -/
structure StorageState where
  dbEnabled : Bool
  csvEnabled : Bool
  table : ArticleTable
  csvRows : List CsvRow
deriving DecidableEq

/-- Embedding of `StorageManager.create_article_batch`
(src/app/models/storage.py, lines 56-85): the batch is handed to the SQLite
backend when configured and to the CSV backend when configured; the counts
returned to the caller are the SQLite backend's when it is configured, else
the CSV backend's. -/
def StorageManager.create_article_batch (st : StorageState) (source_id : Nat)
    (source_name : String) (articles : List ArticleIn) (now : String) :
    BatchResult × StorageState :=
  let db := if st.dbEnabled then Article.create_batch st.table source_id articles now
            else (⟨0, 0⟩, st.table)
  let csv := if st.csvEnabled then
               CSVStorage.create_batch st.csvRows source_id source_name articles now
             else (⟨0, 0⟩, st.csvRows)
  (if st.dbEnabled then db.1 else csv.1,
    { st with table := db.2, csvRows := csv.2 })

/-- An anchor element selected on a listing page: its `href` attribute, if
present. -/
structure Link where
  href : Option String
deriving DecidableEq

/-- Helper for `dedupKeepFirst`: drops every URL already seen, keeping the
first occurrence of each remaining URL. -/
def dedupAux (seen : List String) : List String → List String
  | [] => []
  | u :: rest =>
    if u ∈ seen then dedupAux seen rest else u :: dedupAux (u :: seen) rest

/-- Embedding of `list(dict.fromkeys(urls))` (src/app/scrapers/base_crawler.py,
line 212, and src/app/parsers/rbc_ukraine_parser.py, line 130): removes
duplicates while preserving first-occurrence order. -/
def dedupKeepFirst (urls : List String) : List String := dedupAux [] urls

/-- The URL list `GenericNewsCrawler.get_article_urls` accumulates before
deduplication (src/app/scrapers/base_crawler.py, lines 203-209): each anchor
with a truthy `href` is made absolute and appended when valid.
`absolute_url` (urljoin against the source URL) and `is_valid_url` (urlparse
yielding a scheme and a netloc) are the collaborator methods the loop calls,
passed in as functions. -/
def collectedUrls (links : List Link) (absolute_url : String → String)
    (is_valid_url : String → Bool) : List String :=
  links.foldl (fun acc link =>
    if truthy link.href then
      let absolute := absolute_url (link.href.getD "")
      if is_valid_url absolute then acc ++ [absolute] else acc
    else acc) []

/-- Embedding of `GenericNewsCrawler.get_article_urls`
(src/app/scrapers/base_crawler.py, lines 194-212).  The fetched listing page
is modelled as the list of selected anchors, `none` when `fetch_page`
fails. -/
def GenericNewsCrawler.get_article_urls (page : Option (List Link))
    (absolute_url : String → String) (is_valid_url : String → Bool) :
    List String :=
  match page with
  | none => []
  | some links => dedupKeepFirst (collectedUrls links absolute_url is_valid_url)

/-- The result of one `NewsAPIFetcher.fetch_articles` call
(src/app/api/newsapi_fetcher.py, lines 132-200): whether the reported status
was "ok", the transformed articles of the page, and the API-reported
`totalResults`. -/
structure PageResult where
  ok : Bool
  articles : List ArticleIn
  total_results : Nat

/-- Embedding of the page loop of `NewsAPIFetcher.fetch_all_articles`
(src/app/api/newsapi_fetcher.py, lines 225-248), collecting mode
(`on_batch = None`): `page` is the next page to request and `remaining` is
the number of iterations `range(1, max_pages + 1)` still allows.  The loop
breaks when a page reports a non-ok status, when a page returns zero
articles, or — after keeping the page's articles — when
`page * page_size >= total_results`.  Returns the collected articles and the
list of pages actually requested. -/
def fetchPages (api : Nat → PageResult) (page_size : Nat) :
    Nat → Nat → List ArticleIn × List Nat
  | _, 0 => ([], [])
  | page, remaining + 1 =>
    let res := api page
    if !res.ok then ([], [page])
    else if res.articles.isEmpty then ([], [page])
    else if page * page_size ≥ res.total_results then (res.articles, [page])
    else
      let rest := fetchPages api page_size (page + 1) remaining
      (res.articles ++ rest.1, page :: rest.2)

/-- Embedding of `NewsAPIFetcher.fetch_all_articles`: the page loop starts at
page 1 and runs at most `max_pages` iterations. -/
def fetch_all_articles (api : Nat → PageResult) (max_pages page_size : Nat) :
    List ArticleIn × List Nat :=
  fetchPages api page_size 1 max_pages

/-- A fixture paginated API reporting totalResults = 15 with 10 articles on
page 1 and 5 on every later page. -/
def fifteenTotalApi : Nat → PageResult := fun page =>
  if page = 1 then ⟨true, List.replicate 10 ⟨some "u", some "t", none, none⟩, 15⟩
  else ⟨true, List.replicate 5 ⟨some "u", some "t", none, none⟩, 15⟩

/-- A Python exception, as far as the orchestration layer distinguishes
them. -/
inductive PyError where
  | typeError
  | valueError
  | other
deriving DecidableEq

/-- The per-source crawl counters of `CrawlerManager.crawl_source`. -/
structure Stats where
  found : Nat
  saved : Nat
  skipped : Nat
deriving DecidableEq

/-- The article dict returned by a `parse_article` implementation: `title` is
present and non-empty (both implementations return `None` instead of a dict
when no title is found), `content` may be empty, the date may be absent.
`crawl` adds the `url` key afterwards. -/
structure ParsedArticle where
  title : String
  content : String
  published_date : Option String
deriving DecidableEq

/-- The per-candidate loop of `BaseCrawler.crawl`
(src/app/scrapers/base_crawler.py, lines 148-157): `parse_article` is called
on each candidate in order; a candidate whose parse returns `None` is logged
and skipped and the loop continues; the dict of a successful parse gets its
`url` key set and is appended.  The loop has no exception handler, so an
exception raised by `parse_article` (modelled as `Except.error`) propagates
and aborts the remaining candidates. -/
def crawlLoop (parse : String → Except PyError (Option ParsedArticle)) :
    List String → Except PyError (List ArticleIn)
  | [] => Except.ok []
  | url :: rest =>
    match parse url with
    | Except.error e => Except.error e
    | Except.ok none => crawlLoop parse rest
    | Except.ok (some a) =>
      match crawlLoop parse rest with
      | Except.error e => Except.error e
      | Except.ok arts =>
        Except.ok (⟨some url, some a.title, some a.content, a.published_date⟩ :: arts)

/-- Embedding of `BaseCrawler.crawl` (src/app/scrapers/base_crawler.py, lines
136-160): obtain the candidate URLs once via `get_article_urls`, then parse
every candidate; the parsed articles are returned as one list — this `crawl`
accepts no `on_batch`/`batch_size` keywords and performs no storage
hand-off. -/
def BaseCrawler.crawl (get_article_urls : Except PyError (List String))
    (parse : String → Except PyError (Option ParsedArticle)) :
    Except PyError (List ArticleIn) :=
  match get_article_urls with
  | Except.error e => Except.error e
  | Except.ok urls => crawlLoop parse urls

/-- Five candidate URLs, a fixture listing. -/
def fiveUrls : List String := ["u1", "u2", "u3", "u4", "u5"]

/-- A parse function that raises an exception on the second of the five
candidates and succeeds on the rest. -/
def raisingParse : String → Except PyError (Option ParsedArticle) := fun url =>
  if url = "u2" then Except.error PyError.other
  else Except.ok (some ⟨"T", "C", none⟩)

/-- A parse function that signals "no data" (returns `None`) on the second of
the five candidates and succeeds on the rest. -/
def noneParse : String → Option ParsedArticle := fun url =>
  if url = "u2" then none else some ⟨"T", "C", none⟩

/-- One row of the `sources` table created by `Database.init_database`. -/
structure SourceRow where
  id : Nat
  name : String
  url : String
  parser_class : String
  is_active : Nat
  last_crawled : Option String
deriving DecidableEq

/-- The parser registry `CrawlerManager.PARSERS`
(src/app/utils/crawler_manager.py, lines 21-26): only the RBC Ukraine parser
is registered; the other parsers are commented out. -/
def PARSERS : List String := ["RBCUkraineCrawler"]

/-- The keyword parameters accepted by `BaseCrawler.__init__`
(src/app/scrapers/base_crawler.py, lines 17-18); it declares no catch-all
`**kwargs` parameter. -/
def baseCrawlerInitParams : List String :=
  ["source_url", "user_agent", "request_delay", "timeout", "max_retries"]

/-- The keyword arguments `RBCUkraineCrawler.__init__` passes to
`super().__init__` (src/app/parsers/rbc_ukraine_parser.py, lines 53-56) when
`CrawlerManager.crawl_source` constructs the crawler
(src/app/utils/crawler_manager.py, lines 82-88): `source_url` plus every
keyword the manager supplied, `start_date` and `end_date` included. -/
def rbcSuperInitKwargs : List String :=
  ["source_url", "user_agent", "request_delay", "timeout", "start_date", "end_date"]

/-- The keyword parameters accepted by `BaseCrawler.crawl`
(src/app/scrapers/base_crawler.py, line 136): none besides `self`. -/
def baseCrawlerCrawlParams : List String := []

/-- The keyword arguments `CrawlerManager.crawl_source` passes to
`crawler.crawl` (src/app/utils/crawler_manager.py, line 107). -/
def crawlSourceCrawlKwargs : List String := ["on_batch", "batch_size"]

/-- Python call binding for a callee without a `**kwargs` catch-all: the call
binds — and does not raise `TypeError` — exactly when every passed keyword is
a declared parameter of the callee. -/
def pythonCallBinds (params kwargs : List String) : Bool :=
  kwargs.all (fun k => params.contains k)

/-- The state `CrawlerManager.crawl_source` can read and write: the sources
table and the storage sink state. -/
structure ManagerState where
  sources : List SourceRow
  storage : StorageState
deriving DecidableEq

/-- Embedding of `CrawlerManager.crawl_source`
(src/app/utils/crawler_manager.py, lines 64-121).  An unknown source id or an
unregistered parser class raises `ValueError`.  An inactive source returns
`{found: 0, saved: 0, skipped: 0}` before any crawler is constructed, so no
fetch and no storage write happens.  For an active registered source the
manager constructs `crawler_cls(user_agent=..., request_delay=..., timeout=...,
start_date=..., end_date=...)`; with the classes as defined under src this
construction raises `TypeError`, because `RBCUkraineCrawler.__init__`
forwards its keywords to `BaseCrawler.__init__`, which binds neither
`start_date` nor `end_date` (`pythonCallBinds baseCrawlerInitParams
rbcSuperInitKwargs = false`) — so the batching, storage hand-off and
`last_crawled` update below it are never reached. -/
def crawl_source (st : ManagerState) (source_id : Nat) :
    Except PyError (Stats × ManagerState) :=
  match st.sources.find? (fun s => s.id == source_id) with
  | none => Except.error PyError.valueError
  | some source =>
    if source.is_active == 0 then Except.ok (⟨0, 0, 0⟩, st)
    else if !(PARSERS.contains source.parser_class) then Except.error PyError.valueError
    else Except.error PyError.typeError

/-- The run-level counters of `CrawlerManager.crawl_all_sources`. -/
structure RunStats where
  sources_crawled : Nat
  articles_found : Nat
  articles_saved : Nat
  articles_skipped : Nat
  errors : Nat
deriving DecidableEq

/-- Embedding of `Source.get_all_active` (src/app/models/database.py, lines
128-133): `SELECT * FROM sources WHERE is_active = 1`. -/
def get_all_active (sources : List SourceRow) : List SourceRow :=
  sources.filter (fun s => s.is_active == 1)

/-- Whether a per-source crawl outcome is a success. -/
def crawlOk (r : Except PyError Stats) : Bool :=
  match r with
  | Except.ok _ => true
  | Except.error _ => false

/-- The per-source loop of `CrawlerManager.crawl_all_sources`
(src/app/utils/crawler_manager.py, lines 141-152), abstracted over the
outcome `crawl_source` produces for each source (so the containment holds
for any per-source behavior, a storage write failure propagated out of the
sink included): every source is attempted in order; a successful crawl adds
its counts, an exception of any kind is caught, counted in `errors`, and the
loop continues with the next source. -/
def crawlLoopAll (crawlOne : Nat → Except PyError Stats) :
    List SourceRow → RunStats → RunStats
  | [], acc => acc
  | s :: rest, acc =>
    match crawlOne s.id with
    | Except.ok r =>
      crawlLoopAll crawlOne rest
        ⟨acc.sources_crawled + 1, acc.articles_found + r.found,
          acc.articles_saved + r.saved, acc.articles_skipped + r.skipped, acc.errors⟩
    | Except.error _ =>
      crawlLoopAll crawlOne rest
        ⟨acc.sources_crawled, acc.articles_found, acc.articles_saved,
          acc.articles_skipped, acc.errors + 1⟩

/-- Embedding of `CrawlerManager.crawl_all_sources`
(src/app/utils/crawler_manager.py, lines 123-155): reset the stats, then
crawl every active source. -/
def crawl_all_sources (crawlOne : Nat → Except PyError Stats)
    (sources : List SourceRow) : RunStats :=
  crawlLoopAll crawlOne (get_all_active sources) ⟨0, 0, 0, 0, 0⟩

/-- Embedding of the exit-status decision at src/app/main.py, lines 212-217:
`sys.exit(1)` when the run counted any errors, `sys.exit(0)` otherwise.  In
the src program this decision is unreachable — `main` raises `TypeError`
while constructing the `CrawlerManager` before any crawling (see `mainExit`
and the C8 theorem). -/
def mainExitCode (stats : RunStats) : Nat :=
  if stats.errors > 0 then 1 else 0

/-- The keyword parameters accepted by `CrawlerManager.__init__`
(src/app/utils/crawler_manager.py, lines 28-31); it declares no catch-all
`**kwargs` parameter. -/
def crawlerManagerInitParams : List String :=
  ["db_path", "user_agent", "request_delay", "timeout", "start_date",
    "end_date", "data_storage", "csv_dir"]

/-- The keyword arguments `main` passes to `CrawlerManager`
(src/app/main.py, lines 170-181): `page_start` and `page_end` included. -/
def mainManagerKwargs : List String :=
  ["db_path", "user_agent", "request_delay", "timeout", "start_date",
    "end_date", "page_start", "page_end", "data_storage", "csv_dir"]

/-- Embedding of the exit status of one `main` run (src/app/main.py, lines
170-228): were the `CrawlerManager` construction to bind, the run would crawl
all sources and exit by the errors count (lines 212-217); but the
construction passes `page_start`/`page_end`, which `CrawlerManager.__init__`
does not bind, so the `TypeError` propagates to the top-level handler (lines
226-228) and the process exits 1 before any crawling. -/
def mainExit (crawlOne : Nat → Except PyError Stats)
    (sources : List SourceRow) : Nat :=
  if pythonCallBinds crawlerManagerInitParams mainManagerKwargs then
    mainExitCode (crawl_all_sources crawlOne sources)
  else 1

/-- Embedding of `RBCUkraineCrawler._generate_archive_urls`
(src/app/parsers/rbc_ukraine_parser.py, lines 64-88), over dates represented
as day ordinals (the Python loop iterates `current += timedelta(days=1)`
while `current <= end`): with both dates configured it yields one archive URL
per calendar day of the inclusive range (none when start > end); otherwise it
falls back to the single `source_url` archive page.  Note the src classes can
never actually run it: no constructor assigns `self.start_date` or
`self.end_date` (`BaseCrawler.__init__` does not even bind those keywords),
see the C7 theorem. -/
def generate_archive_urls (source_day : Nat) (start_date end_date : Option Nat) :
    List Nat :=
  match start_date, end_date with
  | some s, some e => if s ≤ e then List.range' s (e - s + 1) else []
  | _, _ => [source_day]

/-- Embedding of `RBCUkraineCrawler.get_article_urls`
(src/app/parsers/rbc_ukraine_parser.py, lines 90-133): fetch each archive
page of the date range, concatenate the news links each page yields, and
remove duplicate URLs keeping first-occurrence order.  `pageLinks` abstracts
lines 95-127 for one archive day: the page fetch (an unfetchable page
contributes nothing), the selector chain and the news-link filter. -/
def RBCUkraineCrawler.get_article_urls (source_day : Nat)
    (start_date end_date : Option Nat) (pageLinks : Nat → List String) :
    List String :=
  dedupKeepFirst
    ((generate_archive_urls source_day start_date end_date).foldl
      (fun acc day => acc ++ pageLinks day) [])

theorem Article.create_of_mem_url {t : ArticleTable} {url : String}
    (h : ∃ r ∈ t.rows, r.url = url) (source_id : Nat) (title : String)
    (content published_date : Option String) (now : String) :
    Article.create t source_id url title content published_date now = (none, t) := by
  have hany : t.rows.any (fun r => r.url == url) = true := by
    obtain ⟨r, hr, hurl⟩ := h
    exact List.any_eq_true.mpr ⟨r, hr, by simp [hurl]⟩
  simp [Article.create, hany]

theorem applyCreate_nodup {t : ArticleTable} (h : t.urls.Nodup) (op : CreateOp) :
    ((applyCreate t op).urls).Nodup := by
  unfold applyCreate Article.create
  by_cases hany : t.rows.any (fun r => r.url == op.url) = true
  · simpa [hany]
  · have hnotmem : op.url ∉ t.urls := by
      intro hmem
      obtain ⟨r, hr, hurl⟩ := List.mem_map.mp hmem
      exact hany (List.any_eq_true.mpr ⟨r, hr, by simp [hurl]⟩)
    simp only [hany, if_false, Bool.false_eq_true]
    simp only [ArticleTable.urls, List.map_append, List.nodup_append, List.map_cons,
      List.map_nil, List.nodup_singleton, true_and] at h hnotmem ⊢
    refine ⟨h, ?_⟩
    intro u hu hsing
    have hends : u = op.url := by simpa using hsing
    subst hends
    exact hnotmem hu

theorem foldl_applyCreate_nodup (ops : List CreateOp) :
    ∀ t : ArticleTable, t.urls.Nodup → ((ops.foldl applyCreate t).urls).Nodup := by
  induction ops with
  | nil => intro t h; simpa using h
  | cons op rest ih =>
    intro t h
    exact ih (applyCreate t op) (applyCreate_nodup h op)

/-- C1: in every storage state reachable from the empty store by
`Article.create` calls, no two stored articles have identical URLs; and
inserting an article whose URL equals that of an already-stored article
returns no row id and leaves the table — every existing row included —
unchanged (the insert is skipped, never merged or overwritten). -/
theorem c1_url_uniqueness (ops : List CreateOp) :
    ((runOps ops).urls).Nodup ∧
    ∀ (source_id : Nat) (url title : String) (content published_date : Option String)
      (now : String), (∃ r ∈ (runOps ops).rows, r.url = url) →
      Article.create (runOps ops) source_id url title content published_date now
        = (none, runOps ops) := by
  refine ⟨foldl_applyCreate_nodup ops ArticleTable.empty (by simp [ArticleTable.empty, ArticleTable.urls]), ?_⟩
  intro source_id url title content published_date now h
  exact Article.create_of_mem_url h source_id title content published_date now

/-- Witness for C1 at a concrete reachable state: after creating the article
at URL `https://e/a`, the stored URLs are duplicate-free and a second insert
at the same URL is skipped and leaves the table unchanged. -/
theorem c1_url_uniqueness_witness :
    ((runOps [⟨1, "https://e/a", "T", none, none, "t0"⟩]).urls).Nodup ∧
    Article.create (runOps [⟨1, "https://e/a", "T", none, none, "t0"⟩])
        2 "https://e/a" "T2" none none "t1"
      = (none, runOps [⟨1, "https://e/a", "T", none, none, "t0"⟩]) := by
  obtain ⟨h1, h2⟩ := c1_url_uniqueness [⟨1, "https://e/a", "T", none, none, "t0"⟩]
  refine ⟨h1, h2 2 "https://e/a" "T2" none none "t1" ?_⟩
  exact ⟨⟨1, 1, "https://e/a", "T", none, none, "t0", "t0", "t0"⟩, by decide, rfl⟩

theorem Article.create_fresh {t : ArticleTable} {url : String} (h : url ∉ t.urls)
    (source_id : Nat) (title : String) (content published_date : Option String)
    (now : String) :
    (Article.create t source_id url title content published_date now).1 = some t.nextId ∧
    (Article.create t source_id url title content published_date now).2.urls
      = t.urls ++ [url] := by
  have hany : (t.rows.any (fun r => r.url == url)) = false := by
    apply List.any_eq_false.mpr
    intro r hr hbeq
    exact h (List.mem_map.mpr ⟨r, hr, by simpa using hbeq⟩)
  constructor
  · simp [Article.create, hany]
  · simp [Article.create, hany, ArticleTable.urls]

theorem create_batch_fresh (source_id : Nat) (now : String) :
    ∀ (articles : List ArticleIn) (t : ArticleTable),
      (∀ a ∈ articles, truthy a.url = true ∧ truthy a.title = true) →
      (articles.map urlKey).Nodup →
      (∀ a ∈ articles, urlKey a ∉ t.urls) →
      (Article.create_batch t source_id articles now).1 = ⟨articles.length, 0⟩ ∧
      (Article.create_batch t source_id articles now).2.urls
        = t.urls ++ articles.map urlKey := by
  intro articles
  induction articles with
  | nil => intro t _ _ _; simp [Article.create_batch]
  | cons a rest ih =>
    intro t hwf hnodup hfresh
    obtain ⟨hu, ht⟩ := hwf a (by simp)
    have hcond : (truthy a.url && truthy a.title) = true := by simp [hu, ht]
    have hfr : urlKey a ∉ t.urls := hfresh a (by simp)
    have hc := Article.create_fresh hfr source_id (a.title.getD "") a.content
      a.published_date now
    simp only [urlKey] at hc
    rw [List.map_cons, List.nodup_cons] at hnodup
    obtain ⟨hnotin, hnodup1⟩ := hnodup
    have hne : ∀ b ∈ rest, urlKey b ≠ urlKey a := fun b hb hbe =>
      hnotin (hbe ▸ List.mem_map.mpr ⟨b, hb, rfl⟩)
    have hfresh1 : ∀ b ∈ rest,
        urlKey b ∉ (Article.create t source_id (a.url.getD "") (a.title.getD "")
          a.content a.published_date now).2.urls := by
      intro b hb hmem
      rw [hc.2] at hmem
      rcases List.mem_append.mp hmem with hm | hm
      · exact hfresh b (by simp [hb]) hm
      · exact hne b hb (by simpa [urlKey] using hm)
    have hrest := ih (Article.create t source_id (a.url.getD "") (a.title.getD "")
      a.content a.published_date now).2 (fun b hb => hwf b (by simp [hb])) hnodup1 hfresh1
    have hsome : (Article.create t source_id (a.url.getD "") (a.title.getD "")
        a.content a.published_date now).1.isSome = true := by
      rw [hc.1]; rfl
    constructor
    · simp [Article.create_batch, hcond, hsome, hrest.1]
    · simp [Article.create_batch, hcond, hsome, hrest.2, hc.2, urlKey,
        List.append_assoc]

theorem create_batch_dup (source_id : Nat) (now : String) :
    ∀ (articles : List ArticleIn) (t : ArticleTable),
      (∀ a ∈ articles, truthy a.url = true ∧ truthy a.title = true) →
      (∀ a ∈ articles, urlKey a ∈ t.urls) →
      Article.create_batch t source_id articles now = (⟨0, articles.length⟩, t) := by
  intro articles
  induction articles with
  | nil => intro t _ _; simp [Article.create_batch]
  | cons a rest ih =>
    intro t hwf hmem
    obtain ⟨hu, ht⟩ := hwf a (by simp)
    have hcond : (truthy a.url && truthy a.title) = true := by simp [hu, ht]
    have hex : ∃ r ∈ t.rows, r.url = urlKey a := by
      obtain ⟨r, hr, hru⟩ := List.mem_map.mp (hmem a (by simp))
      exact ⟨r, hr, hru⟩
    have hc : Article.create t source_id (a.url.getD "") (a.title.getD "")
        a.content a.published_date now = (none, t) :=
      Article.create_of_mem_url hex source_id (a.title.getD "") a.content
        a.published_date now
    have hrest := ih t (fun b hb => hwf b (by simp [hb])) (fun b hb => hmem b (by simp [hb]))
    simp only [urlKey] at hc
    simp [Article.create_batch, hcond, hc, hrest]

/-- C2: storing a batch of N well-formed articles (URL and title present, all
URLs distinct) through the storage sink into a store that contains none of
them reports saved = N and skipped = 0, and storing the identical batch again
immediately afterwards reports saved = 0 and skipped = N. -/
theorem c2_dedup_idempotence (st : StorageState) (source_id : Nat)
    (source_name : String) (articles : List ArticleIn) (now1 now2 : String)
    (hdb : st.dbEnabled = true)
    (hwf : ∀ a ∈ articles, truthy a.url = true ∧ truthy a.title = true)
    (hnodup : (articles.map urlKey).Nodup)
    (hfresh : ∀ a ∈ articles, urlKey a ∉ st.table.urls) :
    (StorageManager.create_article_batch st source_id source_name articles now1).1
      = ⟨articles.length, 0⟩ ∧
    (StorageManager.create_article_batch
        (StorageManager.create_article_batch st source_id source_name articles now1).2
        source_id source_name articles now2).1
      = ⟨0, articles.length⟩ := by
  have hfirst := create_batch_fresh source_id now1 articles st.table hwf hnodup hfresh
  have hmem1 : ∀ a ∈ articles,
      urlKey a ∈ (Article.create_batch st.table source_id articles now1).2.urls := by
    intro a ha
    rw [hfirst.2]
    exact List.mem_append.mpr (Or.inr (List.mem_map.mpr ⟨a, ha, rfl⟩))
  have hsecond := create_batch_dup source_id now2 articles
    (Article.create_batch st.table source_id articles now1).2 hwf hmem1
  constructor
  · simp [StorageManager.create_article_batch, hdb, hfirst.1]
  · simp [StorageManager.create_article_batch, hdb, hsecond]

/-- Witness for C2: a concrete two-article batch stored twice through a sink
whose database backend starts empty reports saved = 2, skipped = 0 the first
time and saved = 0, skipped = 2 the second time. -/
theorem c2_dedup_idempotence_witness :
    (StorageManager.create_article_batch ⟨true, false, ArticleTable.empty, []⟩ 1 "S"
        [⟨some "https://e/a", some "A", none, none⟩,
         ⟨some "https://e/b", some "B", none, none⟩] "t1").1 = ⟨2, 0⟩ ∧
    (StorageManager.create_article_batch
        (StorageManager.create_article_batch ⟨true, false, ArticleTable.empty, []⟩ 1 "S"
          [⟨some "https://e/a", some "A", none, none⟩,
           ⟨some "https://e/b", some "B", none, none⟩] "t1").2 1 "S"
        [⟨some "https://e/a", some "A", none, none⟩,
         ⟨some "https://e/b", some "B", none, none⟩] "t2").1 = ⟨0, 2⟩ := by
  exact c2_dedup_idempotence ⟨true, false, ArticleTable.empty, []⟩ 1 "S"
    [⟨some "https://e/a", some "A", none, none⟩,
     ⟨some "https://e/b", some "B", none, none⟩] "t1" "t2" rfl
    (by decide) (by decide) (by decide)

theorem csv_create_batch_len (source_id : Nat) (source_name : String) (now : String) :
    ∀ (articles : List ArticleIn) (rows : List CsvRow),
      ((CSVStorage.create_batch rows source_id source_name articles now).2).length
        = rows.length
          + (articles.filter (fun a => truthy a.url && truthy a.title)).length := by
  intro articles
  induction articles with
  | nil => intro rows; simp [CSVStorage.create_batch]
  | cons a rest ih =>
    intro rows
    by_cases hcond : (truthy a.url && truthy a.title) = true
    · simp only [CSVStorage.create_batch, hcond, if_true, List.filter_cons_of_pos]
      rw [ih]
      simp [List.filter_cons, hcond]
      omega
    · have hcond' : (truthy a.url && truthy a.title) = false := by
        revert hcond; cases truthy a.url && truthy a.title <;> simp
      simp only [CSVStorage.create_batch, hcond', Bool.false_eq_true, if_false]
      rw [ih]
      simp [List.filter_cons, hcond']

/-- C9: when both the database backend and the CSV backend are configured,
one call to the sink hands the batch to both backends — the resulting state
carries the database table updated by `Article.create_batch` and the CSV rows
extended by `CSVStorage.create_batch` with one row per article having URL and
title — and the counts returned to the caller are exactly the ones reported
by the database backend. -/
theorem c9_counts_from_db (st : StorageState) (source_id : Nat)
    (source_name : String) (articles : List ArticleIn) (now : String)
    (hdb : st.dbEnabled = true) (hcsv : st.csvEnabled = true) :
    (StorageManager.create_article_batch st source_id source_name articles now).1
      = (Article.create_batch st.table source_id articles now).1 ∧
    (StorageManager.create_article_batch st source_id source_name articles now).2.table
      = (Article.create_batch st.table source_id articles now).2 ∧
    (StorageManager.create_article_batch st source_id source_name articles now).2.csvRows
      = (CSVStorage.create_batch st.csvRows source_id source_name articles now).2 ∧
    ((StorageManager.create_article_batch st source_id source_name articles now).2.csvRows).length
      = st.csvRows.length
        + (articles.filter (fun a => truthy a.url && truthy a.title)).length := by
  refine ⟨?_, ?_, ?_, ?_⟩
  · simp [StorageManager.create_article_batch, hdb]
  · simp [StorageManager.create_article_batch, hdb]
  · simp [StorageManager.create_article_batch, hdb, hcsv]
  · simp [StorageManager.create_article_batch, hdb, hcsv,
      csv_create_batch_len source_id source_name now articles st.csvRows]

/-- Witness for C9 at a concrete input where the two backends disagree: the
stored article's URL is already in the database table, so the database
backend reports it skipped while the CSV backend appends it anyway; the sink
returns the database counts and both backends received the batch. -/
theorem c9_counts_from_db_witness :
    (StorageManager.create_article_batch
        ⟨true, true, ⟨[⟨1, 1, "https://e/a", "A", none, none, "t0", "t0", "t0"⟩], 2⟩, []⟩
        1 "S" [⟨some "https://e/a", some "A", none, none⟩] "t1").1
      = (Article.create_batch ⟨[⟨1, 1, "https://e/a", "A", none, none, "t0", "t0", "t0"⟩], 2⟩
          1 [⟨some "https://e/a", some "A", none, none⟩] "t1").1 ∧
    (StorageManager.create_article_batch
        ⟨true, true, ⟨[⟨1, 1, "https://e/a", "A", none, none, "t0", "t0", "t0"⟩], 2⟩, []⟩
        1 "S" [⟨some "https://e/a", some "A", none, none⟩] "t1").2.table
      = (Article.create_batch ⟨[⟨1, 1, "https://e/a", "A", none, none, "t0", "t0", "t0"⟩], 2⟩
          1 [⟨some "https://e/a", some "A", none, none⟩] "t1").2 ∧
    (StorageManager.create_article_batch
        ⟨true, true, ⟨[⟨1, 1, "https://e/a", "A", none, none, "t0", "t0", "t0"⟩], 2⟩, []⟩
        1 "S" [⟨some "https://e/a", some "A", none, none⟩] "t1").2.csvRows
      = (CSVStorage.create_batch [] 1 "S" [⟨some "https://e/a", some "A", none, none⟩] "t1").2 ∧
    ((StorageManager.create_article_batch
        ⟨true, true, ⟨[⟨1, 1, "https://e/a", "A", none, none, "t0", "t0", "t0"⟩], 2⟩, []⟩
        1 "S" [⟨some "https://e/a", some "A", none, none⟩] "t1").2.csvRows).length
      = ([] : List CsvRow).length
        + (([⟨some "https://e/a", some "A", none, none⟩] : List ArticleIn).filter
            (fun a => truthy a.url && truthy a.title)).length :=
  c9_counts_from_db
    ⟨true, true, ⟨[⟨1, 1, "https://e/a", "A", none, none, "t0", "t0", "t0"⟩], 2⟩, []⟩
    1 "S" [⟨some "https://e/a", some "A", none, none⟩] "t1" rfl rfl

theorem mem_dedupAux : ∀ (urls seen : List String) (x : String),
    x ∈ dedupAux seen urls ↔ (x ∈ urls ∧ x ∉ seen) := by
  intro urls
  induction urls with
  | nil => intro seen x; simp [dedupAux]
  | cons u rest ih =>
    intro seen x
    by_cases h : u ∈ seen
    · rw [show dedupAux seen (u :: rest) = dedupAux seen rest by simp [dedupAux, h], ih]
      constructor
      · rintro ⟨hr, hs⟩
        exact ⟨List.mem_cons_of_mem _ hr, hs⟩
      · rintro ⟨hr, hs⟩
        rcases List.mem_cons.mp hr with rfl | hr2
        · exact absurd h hs
        · exact ⟨hr2, hs⟩
    · rw [show dedupAux seen (u :: rest) = u :: dedupAux (u :: seen) rest by
          simp [dedupAux, h],
        List.mem_cons, ih]
      constructor
      · rintro (rfl | ⟨hr, hs⟩)
        · exact ⟨List.mem_cons_self _ _, h⟩
        · exact ⟨List.mem_cons_of_mem _ hr, fun hm => hs (List.mem_cons_of_mem _ hm)⟩
      · rintro ⟨hr, hs⟩
        by_cases hxu : x = u
        · exact Or.inl hxu
        · rcases List.mem_cons.mp hr with rfl | hr2
          · exact Or.inl rfl
          · refine Or.inr ⟨hr2, ?_⟩
            intro hm
            rcases List.mem_cons.mp hm with rfl | hm2
            · exact hxu rfl
            · exact hs hm2

theorem dedupAux_nodup : ∀ (urls seen : List String), (dedupAux seen urls).Nodup := by
  intro urls
  induction urls with
  | nil => intro seen; simp [dedupAux]
  | cons u rest ih =>
    intro seen
    by_cases h : u ∈ seen
    · simpa [dedupAux, h] using ih seen
    · rw [show dedupAux seen (u :: rest) = u :: dedupAux (u :: seen) rest by
          simp [dedupAux, h]]
      refine List.nodup_cons.mpr ⟨?_, ih (u :: seen)⟩
      intro hmem
      exact ((mem_dedupAux rest (u :: seen) u).mp hmem).2 (List.mem_cons_self _ _)

theorem dedupAux_sublist : ∀ (urls seen : List String),
    List.Sublist (dedupAux seen urls) urls := by
  intro urls
  induction urls with
  | nil => intro seen; simp [dedupAux]
  | cons u rest ih =>
    intro seen
    by_cases h : u ∈ seen
    · rw [show dedupAux seen (u :: rest) = dedupAux seen rest by simp [dedupAux, h]]
      exact (ih seen).trans (List.sublist_cons_self u rest)
    · rw [show dedupAux seen (u :: rest) = u :: dedupAux (u :: seen) rest by
          simp [dedupAux, h]]
      exact List.Sublist.cons₂ u (ih (u :: seen))

/-- C5: the candidate-listing operation returns a deduplicated sequence: its
result never contains a URL twice, it is a subsequence of the collected URL
list (so first-occurrence order is preserved), it keeps exactly the URLs that
occur in the listing, and on a listing whose links are [A, B, A, C] it
returns [A, B, C]. -/
theorem c5_listing_dedup_order :
    (∀ (page : Option (List Link)) (au : String → String) (iv : String → Bool),
        (GenericNewsCrawler.get_article_urls page au iv).Nodup) ∧
    (∀ (links : List Link) (au : String → String) (iv : String → Bool),
        List.Sublist (GenericNewsCrawler.get_article_urls (some links) au iv)
          (collectedUrls links au iv) ∧
        ∀ u, u ∈ GenericNewsCrawler.get_article_urls (some links) au iv
          ↔ u ∈ collectedUrls links au iv) ∧
    GenericNewsCrawler.get_article_urls
        (some [⟨some "A"⟩, ⟨some "B"⟩, ⟨some "A"⟩, ⟨some "C"⟩]) id (fun _ => true)
      = ["A", "B", "C"] := by
  refine ⟨?_, ?_, by decide⟩
  · intro page au iv
    match page with
    | none => simp [GenericNewsCrawler.get_article_urls]
    | some links =>
      simpa [GenericNewsCrawler.get_article_urls, dedupKeepFirst] using
        dedupAux_nodup (collectedUrls links au iv) []
  · intro links au iv
    constructor
    · simpa [GenericNewsCrawler.get_article_urls, dedupKeepFirst] using
        dedupAux_sublist (collectedUrls links au iv) []
    · intro u
      simpa [GenericNewsCrawler.get_article_urls, dedupKeepFirst] using
        mem_dedupAux (collectedUrls links au iv) [] u

theorem fetchPages_stop (api : Nat → PageResult) (page_size page r : Nat)
    (hok : (api page).ok = true) (hne : (api page).articles.isEmpty = false)
    (htot : page * page_size ≥ (api page).total_results) :
    fetchPages api page_size page (r + 1) = ((api page).articles, [page]) := by
  simp [fetchPages, hok, hne, htot]

theorem fetchPages_step (api : Nat → PageResult) (page_size page r : Nat)
    (hok : (api page).ok = true) (hne : (api page).articles.isEmpty = false)
    (htot : ¬ page * page_size ≥ (api page).total_results) :
    fetchPages api page_size page (r + 1)
      = ((api page).articles ++ (fetchPages api page_size (page + 1) r).1,
          page :: (fetchPages api page_size (page + 1) r).2) := by
  simp [fetchPages, hok, hne, htot]

theorem fetchPages_pages_le (api : Nat → PageResult) (page_size : Nat) :
    ∀ (r page : Nat), ((fetchPages api page_size page r).2).length ≤ r := by
  intro r
  induction r with
  | zero => intro page; simp [fetchPages]
  | succ n ih =>
    intro page
    by_cases hok : (api page).ok = true
    · by_cases hne : (api page).articles.isEmpty = true
      · simp [fetchPages, hok, hne]
      · by_cases htot : page * page_size ≥ (api page).total_results
        · simp [fetchPages, hok, hne, htot]
        · have := ih (page + 1)
          simp only [fetchPages, hok, Bool.not_true, Bool.false_eq_true, if_false,
            hne, htot]
          simpa using Nat.succ_le_succ this
    · have hok' : (api page).ok = false := by
        revert hok; cases (api page).ok <;> simp
      simp [fetchPages, hok']

/-- C6: the page loop requests at most `max_pages` pages, and for every API
reporting totalResults = 15 on pages 1 and 2 with pageSize = 10 and
maxPages = 10 — page 1 returning 10 articles, page 2 a nonempty remainder —
exactly pages 1 and 2 are requested in order, page 3 is never requested, and
the collected articles are those of pages 1 and 2. -/
theorem c6_pagination_termination (api : Nat → PageResult)
    (h1ok : (api 1).ok = true) (h1len : (api 1).articles.length = 10)
    (h1tot : (api 1).total_results = 15)
    (h2ok : (api 2).ok = true) (h2ne : (api 2).articles ≠ [])
    (h2tot : (api 2).total_results = 15) :
    (∀ (api2 : Nat → PageResult) (mp ps : Nat),
        ((fetch_all_articles api2 mp ps).2).length ≤ mp) ∧
    (fetch_all_articles api 10 10).2 = [1, 2] ∧
    3 ∉ (fetch_all_articles api 10 10).2 ∧
    (fetch_all_articles api 10 10).1 = (api 1).articles ++ (api 2).articles := by
  have hne1 : (api 1).articles.isEmpty = false := by
    cases harts : (api 1).articles with
    | nil => rw [harts] at h1len; simp at h1len
    | cons x xs => simp
  have hne2 : (api 2).articles.isEmpty = false := by
    cases harts : (api 2).articles with
    | nil => exact absurd harts h2ne
    | cons x xs => simp
  have estep := fetchPages_step api 10 1 9 h1ok hne1 (by rw [h1tot]; decide)
  have estop := fetchPages_stop api 10 2 8 h2ok hne2 (by rw [h2tot]; decide)
  have e9 : (9 : Nat) + 1 = 10 := rfl
  have e8 : (8 : Nat) + 1 = 9 := rfl
  rw [e9] at estep
  rw [e8] at estop
  have eall : fetch_all_articles api 10 10
      = ((api 1).articles ++ (api 2).articles, [1, 2]) := by
    rw [fetch_all_articles, estep, estop]
  refine ⟨fun api2 mp ps => fetchPages_pages_le api2 ps mp 1, ?_, ?_, ?_⟩
  · rw [eall]
  · rw [eall]
    show (3 : Nat) ∉ [1, 2]
    decide
  · rw [eall]

/-- Witness for C6: on the concrete fixture API reporting totalResults = 15
with page size 10, the loop requests exactly pages 1 and 2 and never page
3. -/
theorem c6_pagination_termination_witness :
    (∀ (api2 : Nat → PageResult) (mp ps : Nat),
        ((fetch_all_articles api2 mp ps).2).length ≤ mp) ∧
    (fetch_all_articles fifteenTotalApi 10 10).2 = [1, 2] ∧
    3 ∉ (fetch_all_articles fifteenTotalApi 10 10).2 ∧
    (fetch_all_articles fifteenTotalApi 10 10).1
      = (fifteenTotalApi 1).articles ++ (fifteenTotalApi 2).articles := by
  exact c6_pagination_termination fifteenTotalApi (by decide)
    (by simp [fifteenTotalApi]) (by decide) (by decide) (by decide) (by decide)

theorem crawlLoop_of_total (parse : String → Option ParsedArticle) :
    ∀ urls : List String,
      crawlLoop (fun u => Except.ok (parse u)) urls
        = Except.ok (urls.filterMap (fun u => (parse u).map
            (fun a => (⟨some u, some a.title, some a.content, a.published_date⟩
              : ArticleIn)))) := by
  intro urls
  induction urls with
  | nil => simp [crawlLoop]
  | cons u rest ih =>
    cases hp : parse u with
    | none => simp [crawlLoop, hp, ih]
    | some a => simp [crawlLoop, hp, ih]

theorem length_filterMap_withUrl (parse : String → Option ParsedArticle) :
    ∀ urls : List String,
      (urls.filterMap (fun u => (parse u).map
          (fun a => (⟨some u, some a.title, some a.content, a.published_date⟩
            : ArticleIn)))).length
        = (urls.filter (fun u => (parse u).isSome)).length := by
  intro urls
  induction urls with
  | nil => simp
  | cons u rest ih =>
    cases hp : parse u with
    | none => simp [List.filterMap_cons, List.filter_cons, hp, ih]
    | some a => simp [List.filterMap_cons, List.filter_cons, hp, ih]

theorem length_filter_isSome_isNone (parse : String → Option ParsedArticle) :
    ∀ urls : List String,
      (urls.filter (fun u => (parse u).isSome)).length
        + (urls.filter (fun u => (parse u).isNone)).length = urls.length := by
  intro urls
  induction urls with
  | nil => simp
  | cons u rest ih =>
    cases hp : parse u with
    | none =>
      simp only [List.filter_cons, hp, Option.isSome_none, Option.isNone_none,
        if_false, if_true, Bool.false_eq_true, List.length_cons]
      omega
    | some a =>
      simp only [List.filter_cons, hp, Option.isSome_some, Option.isNone_some,
        if_true, if_false, Bool.false_eq_true, List.length_cons]
      omega

/-- C4 counterexample: with the five fixture candidates of which exactly the
second raises an exception, `BaseCrawler.crawl` aborts with the exception
instead of producing the other four articles — the claim fails for failures
that are raised exceptions. -/
theorem c4_raise_aborts_crawl_counterexample :
    BaseCrawler.crawl (Except.ok fiveUrls) raisingParse = Except.error PyError.other ∧
    ¬ ∃ l, BaseCrawler.crawl (Except.ok fiveUrls) raisingParse = Except.ok l
      ∧ l.length = 4 := by
  have h : BaseCrawler.crawl (Except.ok fiveUrls) raisingParse
      = Except.error PyError.other := rfl
  refine ⟨h, ?_⟩
  rintro ⟨l, hl, -⟩
  rw [h] at hl
  exact absurd hl (by simp)

/-- C4 as amended: a per-candidate failure signalled as "no data"
(`parse_article` returning `None`, the path taken for network errors and
missing required fields) is skipped and never aborts the remaining
candidates — the crawl returns exactly the successfully parsed articles, and
with 5 candidates of which exactly one fails this way, 4 articles are
produced. -/
theorem c4_none_failure_containment (urls : List String)
    (parse : String → Option ParsedArticle) :
    BaseCrawler.crawl (Except.ok urls) (fun u => Except.ok (parse u))
      = Except.ok (urls.filterMap (fun u => (parse u).map
          (fun a => (⟨some u, some a.title, some a.content, a.published_date⟩
            : ArticleIn)))) ∧
    (urls.length = 5 → (urls.filter (fun u => (parse u).isNone)).length = 1 →
      ∃ l, BaseCrawler.crawl (Except.ok urls) (fun u => Except.ok (parse u))
        = Except.ok l ∧ l.length = 4) := by
  have hmain := crawlLoop_of_total parse urls
  constructor
  · simpa [BaseCrawler.crawl] using hmain
  · intro h5 h1
    refine ⟨_, by simpa [BaseCrawler.crawl] using hmain, ?_⟩
    rw [length_filterMap_withUrl]
    have hpart := length_filter_isSome_isNone parse urls
    omega

/-- Witness for the amended C4: on the five fixture candidates where only the
second returns "no data", the crawl produces the other four articles. -/
theorem c4_none_failure_containment_witness :
    ∃ l, BaseCrawler.crawl (Except.ok fiveUrls) (fun u => Except.ok (noneParse u))
      = Except.ok l ∧ l.length = 4 :=
  (c4_none_failure_containment fiveUrls noneParse).2 (by decide) (by decide)

/-- C10: calling `crawl_source` on a source whose `is_active` flag is 0
returns found = 0, saved = 0, skipped = 0 without raising, and leaves the
whole manager state (sources table and storage) unchanged — no fetch and no
storage write happens. -/
theorem c10_inactive_source_noop (st : ManagerState) (source_id : Nat)
    (source : SourceRow)
    (hfind : st.sources.find? (fun s => s.id == source_id) = some source)
    (hinactive : source.is_active = 0) :
    crawl_source st source_id = Except.ok (⟨0, 0, 0⟩, st) := by
  simp [crawl_source, hfind, hinactive]

/-- Witness for C10 at a concrete inactive source. -/
theorem c10_inactive_source_noop_witness :
    crawl_source ⟨[⟨1, "S", "https://s", "RBCUkraineCrawler", 0, none⟩],
        ⟨true, false, ArticleTable.empty, []⟩⟩ 1
      = Except.ok (⟨0, 0, 0⟩,
          ⟨[⟨1, "S", "https://s", "RBCUkraineCrawler", 0, none⟩],
            ⟨true, false, ArticleTable.empty, []⟩⟩) :=
  c10_inactive_source_noop _ 1 ⟨1, "S", "https://s", "RBCUkraineCrawler", 0, none⟩
    (by decide) rfl

/-- C3 (code defect): for every active, registered source, the keyword
arguments `crawl_source` supplies never bind — the crawler construction
forwards `start_date`/`end_date` to `BaseCrawler.__init__`, which does not
accept them, and the subsequent `crawler.crawl(on_batch=..., batch_size=10)`
call passes keywords `BaseCrawler.crawl` does not declare — so the crawl
raises `TypeError`: the candidate list is never partitioned into batches of
10, no batch is handed to the storage sink, and `last_crawled` is never
updated. -/
theorem c3_batching_never_reached (st : ManagerState) (source_id : Nat)
    (source : SourceRow)
    (hfind : st.sources.find? (fun s => s.id == source_id) = some source)
    (hactive : source.is_active ≠ 0)
    (hparser : PARSERS.contains source.parser_class = true) :
    pythonCallBinds baseCrawlerInitParams rbcSuperInitKwargs = false ∧
    pythonCallBinds baseCrawlerCrawlParams crawlSourceCrawlKwargs = false ∧
    crawl_source st source_id = Except.error PyError.typeError := by
  have hact : (source.is_active == 0) = false := by
    simp [hactive]
  have hmem : source.parser_class ∈ PARSERS := by simpa using hparser
  refine ⟨by decide, by decide, ?_⟩
  simp [crawl_source, hfind, hact, hmem]

/-- Witness for C3 at a concrete active source bound to the registered RBC
parser. -/
theorem c3_batching_never_reached_witness :
    pythonCallBinds baseCrawlerInitParams rbcSuperInitKwargs = false ∧
    pythonCallBinds baseCrawlerCrawlParams crawlSourceCrawlKwargs = false ∧
    crawl_source ⟨[⟨1, "RBC", "https://www.rbc.ua/rus/archive", "RBCUkraineCrawler", 1, none⟩],
        ⟨true, false, ArticleTable.empty, []⟩⟩ 1
      = Except.error PyError.typeError :=
  c3_batching_never_reached
    ⟨[⟨1, "RBC", "https://www.rbc.ua/rus/archive", "RBCUkraineCrawler", 1, none⟩],
      ⟨true, false, ArticleTable.empty, []⟩⟩ 1
    ⟨1, "RBC", "https://www.rbc.ua/rus/archive", "RBCUkraineCrawler", 1, none⟩
    (by decide) (by decide) (by decide)

/-- C7 (code defect + intended logic): configuring dates on the crawler is
impossible in the src classes — the constructor keywords do not bind — yet
the date-expansion logic itself enumerates exactly one archive URL per
calendar day of the inclusive range, defaults to the single `source_url`
(today's archive) when no dates are configured, and the per-day results are
unioned without duplicate URLs. -/
theorem c7_date_range_expansion (d s e : Nat) (hse : s ≤ e)
    (pageLinks : Nat → List String) :
    pythonCallBinds baseCrawlerInitParams rbcSuperInitKwargs = false ∧
    generate_archive_urls d (some s) (some e) = List.range' s (e - s + 1) ∧
    (generate_archive_urls d (some s) (some e)).length = e - s + 1 ∧
    generate_archive_urls d none none = [d] ∧
    (RBCUkraineCrawler.get_article_urls d (some s) (some e) pageLinks).Nodup := by
  refine ⟨by decide, ?_, ?_, rfl, ?_⟩
  · simp [generate_archive_urls, hse]
  · simp [generate_archive_urls, hse]
  · simpa [RBCUkraineCrawler.get_article_urls, dedupKeepFirst] using
      dedupAux_nodup ((generate_archive_urls d (some s) (some e)).foldl
        (fun acc day => acc ++ pageLinks day) []) []

/-- Witness for C7 on a concrete three-day range (days 100..102): exactly 3
archive URLs, one per day; today-only default without dates; deduplicated
union. -/
theorem c7_date_range_expansion_witness :
    pythonCallBinds baseCrawlerInitParams rbcSuperInitKwargs = false ∧
    (generate_archive_urls 0 (some 100) (some 102)).length = 3 ∧
    generate_archive_urls 0 none none = [0] ∧
    (RBCUkraineCrawler.get_article_urls 0 (some 100) (some 102)
      (fun _ => ["x"])).Nodup := by
  obtain ⟨h1, h2, h3, h4, h5⟩ :=
    c7_date_range_expansion 0 100 102 (by decide) (fun _ => ["x"])
  exact ⟨h1, by rw [h3], h4, h5⟩

theorem filter_length_partition (p : SourceRow → Bool) :
    ∀ l : List SourceRow,
      (l.filter p).length + (l.filter (fun s => !(p s))).length = l.length := by
  intro l
  induction l with
  | nil => simp
  | cons s rest ih => cases hp : p s <;> simp [List.filter_cons, hp] <;> omega

theorem crawlLoopAll_counts (crawlOne : Nat → Except PyError Stats) :
    ∀ (l : List SourceRow) (acc : RunStats),
      (crawlLoopAll crawlOne l acc).errors
        = acc.errors + (l.filter (fun s => !(crawlOk (crawlOne s.id)))).length ∧
      (crawlLoopAll crawlOne l acc).sources_crawled
        = acc.sources_crawled + (l.filter (fun s => crawlOk (crawlOne s.id))).length := by
  intro l
  induction l with
  | nil => intro acc; simp [crawlLoopAll]
  | cons s rest ih =>
    intro acc
    cases hc : crawlOne s.id with
    | ok r =>
      have hok : crawlOk (crawlOne s.id) = true := by simp [crawlOk, hc]
      rw [show crawlLoopAll crawlOne (s :: rest) acc
          = crawlLoopAll crawlOne rest
              ⟨acc.sources_crawled + 1, acc.articles_found + r.found,
                acc.articles_saved + r.saved, acc.articles_skipped + r.skipped,
                acc.errors⟩ by
        simp [crawlLoopAll, hc]]
      obtain ⟨h1, h2⟩ := ih ⟨acc.sources_crawled + 1, acc.articles_found + r.found,
        acc.articles_saved + r.saved, acc.articles_skipped + r.skipped, acc.errors⟩
      constructor
      · rw [h1]; simp [List.filter_cons, hok]
      · rw [h2]
        simp only [List.filter_cons, hok, if_true, List.length_cons]
        omega
    | error e =>
      have hok : crawlOk (crawlOne s.id) = false := by simp [crawlOk, hc]
      rw [show crawlLoopAll crawlOne (s :: rest) acc
          = crawlLoopAll crawlOne rest
              ⟨acc.sources_crawled, acc.articles_found, acc.articles_saved,
                acc.articles_skipped, acc.errors + 1⟩ by
        simp [crawlLoopAll, hc]]
      obtain ⟨h1, h2⟩ := ih ⟨acc.sources_crawled, acc.articles_found,
        acc.articles_saved, acc.articles_skipped, acc.errors + 1⟩
      constructor
      · rw [h1]
        simp only [List.filter_cons, hok, Bool.not_false, if_true, List.length_cons]
        omega
      · rw [h2]; simp [List.filter_cons, hok]

theorem filter_not_ok_nil (crawlOne : Nat → Except PyError Stats) :
    ∀ l : List SourceRow, (∀ s ∈ l, crawlOk (crawlOne s.id) = true) →
      l.filter (fun s => !(crawlOk (crawlOne s.id))) = [] := by
  intro l
  induction l with
  | nil => intro _; simp
  | cons s rest ih =>
    intro h
    have hs := h s (by simp)
    simp [List.filter_cons, hs, ih (fun b hb => h b (by simp [hb]))]

/-- C8 (code defect): the per-source containment half holds — every active
source is attempted, an exception raised while crawling one source (a
storage write failure propagated out of the sink included) is caught by the
all-sources loop and counted in `errors`, and successes plus failures
account for every active source — but the claimed exit-status rule does not:
`main` passes `page_start`/`page_end` keywords `CrawlerManager.__init__`
does not bind, so every run raises `TypeError` before any crawling and the
process exits 1 through the top-level handler; in particular, on a run whose
every active source would crawl successfully (zero source-level errors) the
exit status is still 1, refuting "nonzero if and only if at least one
source-level error occurred". -/
theorem c8_exit_status_code_bug (crawlOne : Nat → Except PyError Stats)
    (sources : List SourceRow)
    (hok : ∀ s ∈ get_all_active sources, crawlOk (crawlOne s.id) = true) :
    (crawl_all_sources crawlOne sources).errors
      = ((get_all_active sources).filter
          (fun s => !(crawlOk (crawlOne s.id)))).length ∧
    (crawl_all_sources crawlOne sources).sources_crawled
        + (crawl_all_sources crawlOne sources).errors
      = (get_all_active sources).length ∧
    pythonCallBinds crawlerManagerInitParams mainManagerKwargs = false ∧
    (crawl_all_sources crawlOne sources).errors = 0 ∧
    mainExit crawlOne sources = 1 ∧
    ¬ (mainExit crawlOne sources ≠ 0
        ↔ 0 < (crawl_all_sources crawlOne sources).errors) := by
  obtain ⟨h1, h2⟩ := crawlLoopAll_counts crawlOne (get_all_active sources)
    ⟨0, 0, 0, 0, 0⟩
  have he : (crawl_all_sources crawlOne sources).errors
      = ((get_all_active sources).filter
          (fun s => !(crawlOk (crawlOne s.id)))).length := by
    simpa [crawl_all_sources] using h1
  have hs : (crawl_all_sources crawlOne sources).sources_crawled
      = ((get_all_active sources).filter (fun s => crawlOk (crawlOne s.id))).length := by
    simpa [crawl_all_sources] using h2
  have hzero : (crawl_all_sources crawlOne sources).errors = 0 := by
    rw [he, filter_not_ok_nil crawlOne (get_all_active sources) hok]
    rfl
  have hbind : pythonCallBinds crawlerManagerInitParams mainManagerKwargs = false := by
    decide
  have hexit : mainExit crawlOne sources = 1 := by
    simp [mainExit, hbind]
  refine ⟨he, ?_, hbind, hzero, hexit, ?_⟩
  · rw [he, hs]
    exact filter_length_partition (fun s => crawlOk (crawlOne s.id))
      (get_all_active sources)
  · intro hiff
    have : 0 < (crawl_all_sources crawlOne sources).errors :=
      hiff.mp (by rw [hexit]; exact one_ne_zero)
    omega

/-- Witness for C8 at a concrete run: one active source whose crawl
succeeds; zero source-level errors are counted, yet the process exits 1. -/
theorem c8_exit_status_code_bug_witness :
    (crawl_all_sources (fun _ => Except.ok ⟨0, 0, 0⟩)
        [⟨1, "S", "https://s", "RBCUkraineCrawler", 1, none⟩]).errors = 0 ∧
    mainExit (fun _ => Except.ok ⟨0, 0, 0⟩)
        [⟨1, "S", "https://s", "RBCUkraineCrawler", 1, none⟩] = 1 ∧
    ¬ (mainExit (fun _ => Except.ok ⟨0, 0, 0⟩)
          [⟨1, "S", "https://s", "RBCUkraineCrawler", 1, none⟩] ≠ 0
        ↔ 0 < (crawl_all_sources (fun _ => Except.ok ⟨0, 0, 0⟩)
            [⟨1, "S", "https://s", "RBCUkraineCrawler", 1, none⟩]).errors) := by
  obtain ⟨-, -, -, h4, h5, h6⟩ := c8_exit_status_code_bug
    (fun _ => Except.ok ⟨0, 0, 0⟩)
    [⟨1, "S", "https://s", "RBCUkraineCrawler", 1, none⟩]
    (fun s _ => by simp [crawlOk])
  exact ⟨h4, h5, h6⟩

end Crawler
